import Mathlib

/-!
Verification of the onboarding workflow server.

The development shallowly embeds the Python sources:
* `server_app/models.py` — the `OnboardingState` record,
* `server_app/workflow.py` — the agent node `_run_agent`, the extraction
  node `_update_state` and the step recomputation inside it,
* `server_app/main.py` — the `/chat` handler's session-registry discipline,
* `server_app/mcp_client.py` — the gateway client with its mock fallback
  and `close()`,
* `mcp_server/tools.py` — the in-process mock tool implementations.

Python values that may sit in a record field (after `setattr` from parsed
JSON the fields are dynamically typed) are modelled by `PyVal`; Python
truthiness (`not field`) by `PyVal.truthy`.  The two external services —
the text-completion oracle and the remote tool gateway — are modelled by
their outcomes, passed in as explicit arguments.
-/

namespace Onboarding

/-- A Python value that can occur in a record field or in a parsed
extraction JSON object: `None`/JSON null, a string, or a list of strings
(the only shapes the program produces and consumes). -/
inductive PyVal where
  | pnone : PyVal
  | pstr : String → PyVal
  | plist : List String → PyVal
deriving DecidableEq, Repr

/-- Python truthiness of a field value: `None`, `""` and `[]` are falsy. -/
def PyVal.truthy : PyVal → Bool
  | .pnone => false
  | .pstr s => !s.isEmpty
  | .plist xs => !xs.isEmpty

/-- The `OnboardingState` pydantic model of `server_app/models.py`.
Every data field defaults to `None`; `step` defaults to
`"collect_store_id"`.  Fields are `PyVal` because `_update_state` assigns
raw JSON values to them via `setattr`. -/
structure OnboardingState where
  store_id : PyVal := PyVal.pnone
  team_name : PyVal := PyVal.pnone
  profile_name : PyVal := PyVal.pnone
  b2b_profiles : PyVal := PyVal.pnone
  b2b_identities : PyVal := PyVal.pnone
  selected_profiles : PyVal := PyVal.pnone
  selected_identities : PyVal := PyVal.pnone
  step : PyVal := PyVal.pstr "collect_store_id"
deriving DecidableEq, Repr

/-- Whether `pre` is an initial segment of `l`. -/
def leadsWith : List Char → List Char → Bool
  | [], _ => true
  | _ :: _, [] => false
  | c :: cs, d :: ds => c = d && leadsWith cs ds

/-- Whether `needle` occurs contiguously somewhere in `hay`. -/
def occursIn (needle : List Char) : List Char → Bool
  | [] => leadsWith needle []
  | d :: ds => leadsWith needle (d :: ds) || occursIn needle ds

/-- Python's `s.lower()`, as the character sequence of the string with
every character lowercased. -/
def pyLower (s : String) : List Char :=
  s.data.map Char.toLower

/-- Python's substring test `needle in hay.lower()` for a lowercase
literal `needle`. -/
def strContains (hay needle : String) : Bool :=
  occursIn needle.data (pyLower hay)

/-- The step recomputation of `_update_state` (workflow.py lines 181-192):
the if/elif chain over the record's fields and the latest assistant
message, first match wins. -/
def computeStep (st : OnboardingState) (current_message : String) : String :=
  if !st.store_id.truthy then "collect_store_id"
  else if !st.team_name.truthy || !st.profile_name.truthy then "fetch_store_info"
  else if !st.b2b_profiles.truthy || !st.b2b_identities.truthy then "fetch_b2b_data"
  else if !st.selected_profiles.truthy || !st.selected_identities.truthy then "collect_selections"
  else if strContains current_message "onboarding completed"
       || strContains current_message "successfully" then "completed"
  else "in_progress"

/-- The effect on the record of one NON-aborting iteration of the update
loop of `_update_state` (lines 176-178): a key naming one of the eight
declared fields with a value other than the literal `"None"` is assigned
by `setattr`; a key with value `"None"`, and a key that is not an
attribute of the record at all (`hasattr` false), are skipped.  The
aborting case — a non-field attribute key, where `setattr` raises — is
handled by `runUpdates` below. -/
def applyUpdate (st : OnboardingState) (kv : String × PyVal) : OnboardingState :=
  if kv.2 = PyVal.pstr "None" then st
  else if kv.1 = "store_id" then { st with store_id := kv.2 }
  else if kv.1 = "team_name" then { st with team_name := kv.2 }
  else if kv.1 = "profile_name" then { st with profile_name := kv.2 }
  else if kv.1 = "b2b_profiles" then { st with b2b_profiles := kv.2 }
  else if kv.1 = "b2b_identities" then { st with b2b_identities := kv.2 }
  else if kv.1 = "selected_profiles" then { st with selected_profiles := kv.2 }
  else if kv.1 = "selected_identities" then { st with selected_identities := kv.2 }
  else if kv.1 = "step" then { st with step := kv.2 }
  else st

/-- The whole update loop on an object with no aborting key, applied in
iteration order of the parsed JSON object. -/
def applyUpdates (st : OnboardingState) (u : List (String × PyVal)) : OnboardingState :=
  u.foldl applyUpdate st

/-- Non-field attributes of a pydantic `BaseModel` instance: names for
which Python's `hasattr(onboarding_state, key)` is true because the base
class provides them (the documented public API), but which are not
declared fields, so `setattr` on them raises `ValueError` under the
default config.  Arbitrary other JSON keys are not attributes of the
instance (`hasattr` false). -/
def nonFieldAttrs : List String :=
  ["dict", "json", "copy", "construct", "schema", "schema_json",
   "parse_obj", "parse_raw", "parse_file", "from_orm",
   "update_forward_refs", "validate"]

/-- Whether one loop iteration raises: the key passes the `hasattr` guard
as a non-field attribute and the value is not the literal `"None"`, so
the guard holds and the pydantic `setattr` raises `ValueError`. -/
def aborts (kv : String × PyVal) : Bool :=
  decide (kv.1 ∈ nonFieldAttrs) && decide (kv.2 ≠ PyVal.pstr "None")

/-- Whether the update loop runs to completion on the object, i.e. no
pair makes `setattr` raise. -/
def loopCompletes (u : List (String × PyVal)) : Bool :=
  u.all (fun kv => !aborts kv)

/-- The update loop of `_update_state` (lines 176-178) as the source runs
it: pairs are processed in order; an aborting pair raises out of the loop
(the flag `false`), keeping the writes already made in place and applying
nothing further; otherwise the loop completes (the flag `true`). -/
def runUpdates (st : OnboardingState) : List (String × PyVal) → OnboardingState × Bool
  | [] => (st, true)
  | kv :: rest =>
    if aborts kv then (st, false)
    else runUpdates (applyUpdate st kv) rest

/-- Outcome of the extraction oracle call followed by `json.loads`:
either a parsed JSON object (a key/value sequence) or a failure (the
oracle raised, or its response was not a JSON object). -/
inductive ExtractionOutcome where
  | failure : ExtractionOutcome
  | success : List (String × PyVal) → ExtractionOutcome

/-- The `_update_state` node of workflow.py (lines 160-198).  On a parse
failure (or oracle exception) the record is kept as is.  On a parsed
object the update loop runs: if it completes, `step` is recomputed; if a
`setattr` raises mid-loop, the blanket `except` at line 194 swallows it,
so the partially updated record is returned with NO step recomputation
(the recompute sits inside the same `try`). -/
def updateState (st : OnboardingState) (current_message : String) :
    ExtractionOutcome → OnboardingState
  | ExtractionOutcome.failure => st
  | ExtractionOutcome.success u =>
      match runUpdates st u with
      | (st1, true) => { st1 with step := PyVal.pstr (computeStep st1 current_message) }
      | (st1, false) => st1

/-- The step rules as the specification words them (spec section 4.3,
rule 5): the first-match priority list over "set"/"missing" fields, where
a missing field is one rendered as the placeholder, i.e. a falsy one.
Written from the spec's sentences, to be compared with `computeStep`. -/
def stepSpecification (st : OnboardingState) (text : String) : String :=
  if st.store_id.truthy = false then "collect_store_id"
  else if st.team_name.truthy = false ∨ st.profile_name.truthy = false then
    "fetch_store_info"
  else if st.b2b_profiles.truthy = false ∨ st.b2b_identities.truthy = false then
    "fetch_b2b_data"
  else if st.selected_profiles.truthy = false ∨ st.selected_identities.truthy = false then
    "collect_selections"
  else if strContains text "onboarding completed" = true
       ∨ strContains text "successfully" = true then "completed"
  else "in_progress"

/-- The six admissible values of the `step` enum. -/
def stepValues : List String :=
  ["collect_store_id", "fetch_store_info", "fetch_b2b_data",
   "collect_selections", "completed", "in_progress"]

/-- The value written into a given field by the update loop, if any: the
last pair of the object whose key is the field's name and whose value is
not the literal string `"None"`. -/
def lastWrite (k : String) : List (String × PyVal) → Option PyVal
  | [] => none
  | (k', v) :: rest =>
    match lastWrite k rest with
    | some w => some w
    | none => if k' = k ∧ v ≠ PyVal.pstr "None" then some v else none

/-- A chat message of the conversation history, tagged by origin. -/
inductive ChatMsg where
  | human : String → ChatMsg
  | ai : String → ChatMsg
deriving DecidableEq, Repr

/-- The LangGraph state threaded through the workflow nodes
(`WorkflowState` of workflow.py). -/
structure WorkflowState where
  messages : List ChatMsg
  onboarding_state : OnboardingState
  agent_scratchpad : List ChatMsg := []
deriving Repr

/-- The fixed apology string of `_run_agent`'s exception handler. -/
def agentErrorMessage : String :=
  "I apologize, but I encountered an error processing your request. Please try again."

/-- The `_run_agent` node of workflow.py (lines 105-130): on success the
agent's output is appended as one assistant message; on any exception the
fixed apology is appended instead.  Either way the node returns only the
message list, so `onboarding_state` is untouched. -/
def run_agent (state : WorkflowState) (outcome : Except String String) : WorkflowState :=
  match outcome with
  | Except.ok response =>
      { state with messages := state.messages ++ [ChatMsg.ai response] }
  | Except.error _ =>
      { state with messages := state.messages ++ [ChatMsg.ai agentErrorMessage] }

/-- The `max_iterations=5` argument passed to the agent executor in
`_create_agent` (workflow.py line 85). -/
def max_iterations : Nat := 5

/-- One step of the agent executor's internal loop: either one more
tool-call iteration with a new internal state, or a final answer. -/
inductive AgentStep (σ : Type) where
  | next : σ → AgentStep σ
  | finish : String → AgentStep σ

/-- Modelled from the spec: the agent executor's bounded tool-call loop
(the loop body lives in the third-party `AgentExecutor`, not under the
repository sources; only the cap `max_iterations` is set by workflow.py).
Runs at most `fuel` iterations; `none` means the cap was exhausted before
a final answer. -/
def runLoop {σ : Type} (step : σ → AgentStep σ) : Nat → σ → Option String
  | 0, _ => none
  | n + 1, s =>
    match step s with
    | AgentStep.finish a => some a
    | AgentStep.next s' => runLoop step n s'

/-- Number of loop iterations actually executed by `runLoop` with the
given fuel. -/
def loopIters {σ : Type} (step : σ → AgentStep σ) : Nat → σ → Nat
  | 0, _ => 0
  | n + 1, s =>
    match step s with
    | AgentStep.finish _ => 1
    | AgentStep.next s' => 1 + loopIters step n s'

/-- Modelled from the spec: the generic apology the turn ends with when
the iteration cap is exceeded, instead of an error being propagated. -/
def agentStopMessage : String :=
  "I apologize, but I encountered an error processing your request. Please try again."

/-- Modelled from the spec: the whole capped agent turn — run the loop
with the fixed cap and substitute the generic apology when the cap is
exceeded. -/
def agentTurnResult {σ : Type} (step : σ → AgentStep σ) (s : σ) : String :=
  match runLoop step max_iterations s with
  | some a => a
  | none => agentStopMessage

/-- One stored session of `session_states` in main.py: the message
history (main.py appends the raw user strings) and the onboarding
record. -/
structure Session where
  messages : List String := []
  record : OnboardingState := {}
deriving DecidableEq, Repr

/-- The session registry `session_states`, keyed by session id. -/
def Registry := List (String × Session)

instance : DecidableEq Registry := fun a b => List.hasDecEq a b

/-- `session_states[sid] = s`: replace the binding if present, else add it. -/
def setSession (sid : String) (s : Session) : Registry → Registry
  | [] => [(sid, s)]
  | (k, v) :: rest =>
    if k = sid then (k, s) :: rest else (k, v) :: setSession sid s rest

/-- `session_states.get(sid)`. -/
def getSession (reg : Registry) (sid : String) : Option Session :=
  List.lookup sid reg

/-- The `/chat` handler of main.py (lines 63-96), with the turn itself
(`workflow.process_message`) passed in as a fallible oracle.  The handler
looks up the stored session (or builds a fresh default), appends the user
message to the session's message list — for an existing session this
mutates the STORED list in place, so the append is reflected in the
registry before the turn runs — then runs the turn; on success it commits
the updated session, on an exception it returns the error as a request
failure.  Returns the registry as left behind plus the outcome. -/
def chat (reg : Registry) (session_id : Option String) (message : String)
    (turn : Session → Except String (String × Session)) :
    Registry × Except String (String × Session) :=
  let sid := session_id.getD "default"
  match getSession reg sid with
  | some stored =>
      let current : Session := { stored with messages := stored.messages ++ [message] }
      let reg1 := setSession sid current reg
      match turn current with
      | Except.error e => (reg1, Except.error e)
      | Except.ok (resp, updated) =>
          (setSession sid updated reg1, Except.ok (resp, updated))
  | none =>
      let current : Session := { messages := [message], record := {} }
      match turn current with
      | Except.error e => (reg, Except.error e)
      | Except.ok (resp, updated) =>
          (setSession sid updated reg, Except.ok (resp, updated))

/-- Result shape of the profile/team lookup tool (`tools.py`). -/
structure ProfileTeam where
  team_name : String
  profile_name : String
deriving DecidableEq, Repr

/-- Result shape of the B2B lookup tool (`tools.py`). -/
structure B2BResult where
  profiles : List String
  identities : List String
deriving DecidableEq, Repr

/-- The echoed argument record of `onboard_user` (`tools.py`). -/
structure UserDetails where
  store_id : String
  team_name : String
  profile_name : String
  selected_profiles : List String
  selected_identities : List String
deriving DecidableEq, Repr

/-- Result shape of the finalize tool (`tools.py`). -/
structure OnboardResult where
  status : String
  message : String
  onboarding_id : String
  user_details : UserDetails
deriving DecidableEq, Repr

/-- The ambient Python library behaviour the mock tools depend on:
`hash` is Python's (process-seeded) string hash as a nonnegative residue
supplier, and the two sample functions are the seeded `random.sample`
draws of `get_b2b_profiles_and_identities_by_store_id`, which depend only
on the store id. -/
structure PyEnv where
  hash : String → Nat
  sampleProfiles : String → List String
  sampleIdentities : String → List String

/-- The candidate team names of `tools.py`. -/
def team_names : List String :=
  ["Alpha Team", "Beta Squad", "Gamma Force", "Delta Unit",
   "Echo Group", "Foxtrot Division", "Golf Section", "Hotel Brigade"]

/-- The candidate profile names of `tools.py`. -/
def profile_names : List String :=
  ["Enterprise Profile", "Business Profile", "Premium Profile",
   "Standard Profile", "Advanced Profile", "Professional Profile",
   "Corporate Profile", "Executive Profile"]

/-- `MCPTools.get_profile_and_team_name_by_store_id` (tools.py lines
11-40): pick a team and profile name by the hash of the store id. -/
def get_profile_and_team_name_by_store_id (env : PyEnv) (store_id : String) : ProfileTeam :=
  let hash_val := env.hash store_id % team_names.length
  { team_name := team_names.getD hash_val "",
    profile_name := profile_names.getD (hash_val % profile_names.length) "" }

/-- `MCPTools.get_b2b_profiles_and_identities_by_store_id` (tools.py
lines 42-78): the seeded random draws, which are a function of the store
id only, are taken from the environment. -/
def get_b2b_profiles_and_identities_by_store_id (env : PyEnv) (store_id : String) : B2BResult :=
  { profiles := env.sampleProfiles store_id,
    identities := env.sampleIdentities store_id }

/-- Zero-pad the decimal rendering of `n` to four digits, as Python's
format `{...:04d}` does for values below 10000. -/
def pad4 (n : Nat) : String :=
  let s := toString n
  String.mk (List.replicate (4 - s.length) '0') ++ s

/-- `MCPTools.onboard_user` (tools.py lines 80-108). -/
def onboard_user (env : PyEnv) (store_id team_name profile_name : String)
    (selected_profiles selected_identities : List String) : OnboardResult :=
  { status := "success",
    message := "User onboarding process initiated successfully",
    onboarding_id := "ONB-" ++ pad4 (env.hash store_id % 10000),
    user_details :=
      { store_id := store_id, team_name := team_name,
        profile_name := profile_name,
        selected_profiles := selected_profiles,
        selected_identities := selected_identities } }

/-- Outcome of one remote tool call as seen by `MCPClient`: the call (or
the connection) raised; or it returned an empty `content` list (which the
client turns into a `ValueError`); or it returned a text payload, whose
`json.loads` decoding either fails (`none`) or yields a value of the
expected shape. -/
inductive RemoteOutcome (α : Type) where
  | raised : RemoteOutcome α
  | emptyContent : RemoteOutcome α
  | payload : Option α → RemoteOutcome α
deriving DecidableEq

/-- Whether the remote call failed to deliver a decodable payload. -/
def RemoteOutcome.failed {α : Type} : RemoteOutcome α → Bool
  | RemoteOutcome.raised => true
  | RemoteOutcome.emptyContent => true
  | RemoteOutcome.payload none => true
  | RemoteOutcome.payload (some _) => false

/-- `MCPClient.get_profile_and_team_name` (mcp_client.py lines 39-60):
return the decoded remote payload, and on any failure fall back to the
direct in-process mock. -/
def client_get_profile_and_team_name (env : PyEnv)
    (remote : RemoteOutcome ProfileTeam) (store_id : String) : ProfileTeam :=
  match remote with
  | RemoteOutcome.payload (some d) => d
  | _ => get_profile_and_team_name_by_store_id env store_id

/-- `MCPClient.get_b2b_profiles_and_identities` (mcp_client.py lines
62-83). -/
def client_get_b2b_profiles_and_identities (env : PyEnv)
    (remote : RemoteOutcome B2BResult) (store_id : String) : B2BResult :=
  match remote with
  | RemoteOutcome.payload (some d) => d
  | _ => get_b2b_profiles_and_identities_by_store_id env store_id

/-- `MCPClient.onboard_user` (mcp_client.py lines 85-119). -/
def client_onboard_user (env : PyEnv) (remote : RemoteOutcome OnboardResult)
    (store_id team_name profile_name : String)
    (selected_profiles selected_identities : List String) : OnboardResult :=
  match remote with
  | RemoteOutcome.payload (some d) => d
  | _ => onboard_user env store_id team_name profile_name
      selected_profiles selected_identities

/-- The `MCPClient` connection state: `session` is the stored session
handle (abstract), `None` before `connect` and after `close`. -/
structure MCPClientState (σ : Type) where
  session : Option σ
deriving DecidableEq

/-- `MCPClient.close` (mcp_client.py lines 121-125).  With no stored
handle, nothing happens: no remote work, no exception.  With a stored
handle the client awaits `self.session.close()` UNGUARDED: `remote` is
that call's outcome; if it raises, the exception propagates out of
`close()` and the handle is NOT cleared; only if it returns is the handle
set to `None`.  Result: (client state after the call, the call's own
outcome, whether remote work was attempted). -/
def MCPClientState.close {σ : Type} (c : MCPClientState σ)
    (remote : Except String Unit) :
    MCPClientState σ × Except String Unit × Bool :=
  match c.session with
  | none => (c, Except.ok (), false)
  | some _ =>
    match remote with
    | Except.error e => (c, Except.error e, true)
    | Except.ok _ => ({ session := none }, Except.ok (), true)

/-!  ## Theorems  -/

theorem stepSpecification_eq_computeStep (st : OnboardingState) (text : String) :
    stepSpecification st text = computeStep st text := by
  unfold stepSpecification computeStep
  rcases hsi : st.store_id.truthy <;>
    rcases htn : st.team_name.truthy <;>
    rcases hpn : st.profile_name.truthy <;>
    rcases hbp : st.b2b_profiles.truthy <;>
    rcases hbi : st.b2b_identities.truthy <;>
    rcases hsp : st.selected_profiles.truthy <;>
    rcases hsd : st.selected_identities.truthy <;>
    simp [hsi, htn, hpn, hbp, hbi, hsp, hsd]

theorem computeStep_step_irrelevant (st : OnboardingState) (v : PyVal) (text : String) :
    computeStep { st with step := v } text = computeStep st text := rfl

theorem computeStep_mem_stepValues (st : OnboardingState) (text : String) :
    computeStep st text ∈ stepValues := by
  unfold computeStep stepValues
  split
  · simp
  · split
    · simp
    · split
      · simp
      · split
        · simp
        · split <;> simp

theorem applyUpdates_cons (st : OnboardingState) (kv : String × PyVal)
    (u : List (String × PyVal)) :
    applyUpdates st (kv :: u) = applyUpdates (applyUpdate st kv) u := rfl

theorem applyUpdate_store_id (st : OnboardingState) (k : String) (v : PyVal) :
    (applyUpdate st (k, v)).store_id =
      if k = "store_id" ∧ v ≠ PyVal.pstr "None" then v else st.store_id := by
  unfold applyUpdate
  split_ifs <;> simp_all

theorem applyUpdate_team_name (st : OnboardingState) (k : String) (v : PyVal) :
    (applyUpdate st (k, v)).team_name =
      if k = "team_name" ∧ v ≠ PyVal.pstr "None" then v else st.team_name := by
  unfold applyUpdate
  split_ifs <;> simp_all

theorem applyUpdate_profile_name (st : OnboardingState) (k : String) (v : PyVal) :
    (applyUpdate st (k, v)).profile_name =
      if k = "profile_name" ∧ v ≠ PyVal.pstr "None" then v else st.profile_name := by
  unfold applyUpdate
  split_ifs <;> simp_all

theorem applyUpdate_b2b_profiles (st : OnboardingState) (k : String) (v : PyVal) :
    (applyUpdate st (k, v)).b2b_profiles =
      if k = "b2b_profiles" ∧ v ≠ PyVal.pstr "None" then v else st.b2b_profiles := by
  unfold applyUpdate
  split_ifs <;> simp_all

theorem applyUpdate_b2b_identities (st : OnboardingState) (k : String) (v : PyVal) :
    (applyUpdate st (k, v)).b2b_identities =
      if k = "b2b_identities" ∧ v ≠ PyVal.pstr "None" then v else st.b2b_identities := by
  unfold applyUpdate
  split_ifs <;> simp_all

theorem applyUpdate_selected_profiles (st : OnboardingState) (k : String) (v : PyVal) :
    (applyUpdate st (k, v)).selected_profiles =
      if k = "selected_profiles" ∧ v ≠ PyVal.pstr "None" then v
      else st.selected_profiles := by
  unfold applyUpdate
  split_ifs <;> simp_all

theorem applyUpdate_selected_identities (st : OnboardingState) (k : String) (v : PyVal) :
    (applyUpdate st (k, v)).selected_identities =
      if k = "selected_identities" ∧ v ≠ PyVal.pstr "None" then v
      else st.selected_identities := by
  unfold applyUpdate
  split_ifs <;> simp_all

theorem applyUpdate_step (st : OnboardingState) (k : String) (v : PyVal) :
    (applyUpdate st (k, v)).step =
      if k = "step" ∧ v ≠ PyVal.pstr "None" then v else st.step := by
  unfold applyUpdate
  split_ifs <;> simp_all

theorem applyUpdates_store_id (u : List (String × PyVal)) :
    ∀ st : OnboardingState,
      (applyUpdates st u).store_id = (lastWrite "store_id" u).getD st.store_id := by
  induction u with
  | nil => intro st; rfl
  | cons kv rest ih =>
    intro st
    rcases kv with ⟨k, v⟩
    rw [applyUpdates_cons, ih]
    rcases hrest : lastWrite "store_id" rest with _ | w
    · rw [applyUpdate_store_id]
      simp only [lastWrite, hrest]
      split_ifs <;> simp_all
    · simp [lastWrite, hrest]

theorem applyUpdates_team_name (u : List (String × PyVal)) :
    ∀ st : OnboardingState,
      (applyUpdates st u).team_name = (lastWrite "team_name" u).getD st.team_name := by
  induction u with
  | nil => intro st; rfl
  | cons kv rest ih =>
    intro st
    rcases kv with ⟨k, v⟩
    rw [applyUpdates_cons, ih]
    rcases hrest : lastWrite "team_name" rest with _ | w
    · rw [applyUpdate_team_name]
      simp only [lastWrite, hrest]
      split_ifs <;> simp_all
    · simp [lastWrite, hrest]

theorem applyUpdates_profile_name (u : List (String × PyVal)) :
    ∀ st : OnboardingState,
      (applyUpdates st u).profile_name
        = (lastWrite "profile_name" u).getD st.profile_name := by
  induction u with
  | nil => intro st; rfl
  | cons kv rest ih =>
    intro st
    rcases kv with ⟨k, v⟩
    rw [applyUpdates_cons, ih]
    rcases hrest : lastWrite "profile_name" rest with _ | w
    · rw [applyUpdate_profile_name]
      simp only [lastWrite, hrest]
      split_ifs <;> simp_all
    · simp [lastWrite, hrest]

theorem applyUpdates_b2b_profiles (u : List (String × PyVal)) :
    ∀ st : OnboardingState,
      (applyUpdates st u).b2b_profiles
        = (lastWrite "b2b_profiles" u).getD st.b2b_profiles := by
  induction u with
  | nil => intro st; rfl
  | cons kv rest ih =>
    intro st
    rcases kv with ⟨k, v⟩
    rw [applyUpdates_cons, ih]
    rcases hrest : lastWrite "b2b_profiles" rest with _ | w
    · rw [applyUpdate_b2b_profiles]
      simp only [lastWrite, hrest]
      split_ifs <;> simp_all
    · simp [lastWrite, hrest]

theorem applyUpdates_b2b_identities (u : List (String × PyVal)) :
    ∀ st : OnboardingState,
      (applyUpdates st u).b2b_identities
        = (lastWrite "b2b_identities" u).getD st.b2b_identities := by
  induction u with
  | nil => intro st; rfl
  | cons kv rest ih =>
    intro st
    rcases kv with ⟨k, v⟩
    rw [applyUpdates_cons, ih]
    rcases hrest : lastWrite "b2b_identities" rest with _ | w
    · rw [applyUpdate_b2b_identities]
      simp only [lastWrite, hrest]
      split_ifs <;> simp_all
    · simp [lastWrite, hrest]

theorem applyUpdates_selected_profiles (u : List (String × PyVal)) :
    ∀ st : OnboardingState,
      (applyUpdates st u).selected_profiles
        = (lastWrite "selected_profiles" u).getD st.selected_profiles := by
  induction u with
  | nil => intro st; rfl
  | cons kv rest ih =>
    intro st
    rcases kv with ⟨k, v⟩
    rw [applyUpdates_cons, ih]
    rcases hrest : lastWrite "selected_profiles" rest with _ | w
    · rw [applyUpdate_selected_profiles]
      simp only [lastWrite, hrest]
      split_ifs <;> simp_all
    · simp [lastWrite, hrest]

theorem applyUpdates_selected_identities (u : List (String × PyVal)) :
    ∀ st : OnboardingState,
      (applyUpdates st u).selected_identities
        = (lastWrite "selected_identities" u).getD st.selected_identities := by
  induction u with
  | nil => intro st; rfl
  | cons kv rest ih =>
    intro st
    rcases kv with ⟨k, v⟩
    rw [applyUpdates_cons, ih]
    rcases hrest : lastWrite "selected_identities" rest with _ | w
    · rw [applyUpdate_selected_identities]
      simp only [lastWrite, hrest]
      split_ifs <;> simp_all
    · simp [lastWrite, hrest]

theorem applyUpdates_step (u : List (String × PyVal)) :
    ∀ st : OnboardingState,
      (applyUpdates st u).step = (lastWrite "step" u).getD st.step := by
  induction u with
  | nil => intro st; rfl
  | cons kv rest ih =>
    intro st
    rcases kv with ⟨k, v⟩
    rw [applyUpdates_cons, ih]
    rcases hrest : lastWrite "step" rest with _ | w
    · rw [applyUpdate_step]
      simp only [lastWrite, hrest]
      split_ifs <;> simp_all
    · simp [lastWrite, hrest]

theorem runUpdates_completes (u : List (String × PyVal)) :
    ∀ st : OnboardingState, loopCompletes u = true →
      runUpdates st u = (applyUpdates st u, true) := by
  induction u with
  | nil => intro st _; rfl
  | cons kv rest ih =>
    intro st h
    simp only [loopCompletes, List.all_cons, Bool.and_eq_true,
      Bool.not_eq_true'] at h
    obtain ⟨h1, h2⟩ := h
    unfold runUpdates
    rw [h1]
    simp only [Bool.false_eq_true, if_false, applyUpdates_cons]
    exact ih (applyUpdate st kv) h2

/-- A record with every data field populated, used as a concrete input. -/
def stFull : OnboardingState :=
  { store_id := PyVal.pstr "S1", team_name := PyVal.pstr "Alpha Team",
    profile_name := PyVal.pstr "Enterprise Profile",
    b2b_profiles := PyVal.plist ["Retail Profile"],
    b2b_identities := PyVal.plist ["Admin Identity"],
    selected_profiles := PyVal.plist ["Retail Profile"],
    selected_identities := PyVal.plist ["Admin Identity"] }

/-- A record holding only a store id, with a stale `step` value, used as
a concrete input for the extraction-failure path. -/
def stStale : OnboardingState :=
  { store_id := PyVal.pstr "S1", step := PyVal.pstr "in_progress" }

/-- Claim C1, counterexample: after a pass whose extraction JSON parsed
successfully, the step is NOT always recomputed.  A parsed update holding
the non-field attribute key `"dict"` with a non-`"None"` value passes the
`hasattr` guard, the pydantic `setattr` raises, the blanket `except`
swallows it and the recompute is skipped — the stale step
`"in_progress"` survives where the priority rules on the record's own
fields give `"fetch_store_info"`. -/
theorem step_not_recomputed_on_abort_cex :
    (updateState stStale "hello"
        (ExtractionOutcome.success [("dict", PyVal.pstr "x")])).step
      ≠ PyVal.pstr (stepSpecification
          (updateState stStale "hello"
            (ExtractionOutcome.success [("dict", PyVal.pstr "x")])) "hello") := by
  decide

/-- Claim C1 (amended): provided the update loop completes — no key of
the parsed object is a non-field attribute carrying a value other than
`"None"`, which would make `setattr` raise and abort the pass — the
`step` field after the pass equals exactly the first-match priority
evaluation of the spec's rules on the updated record and the latest
assistant text; and the recomputation is a pure function of the record's
data fields and the text — re-running the rules on the unchanged result
record with the unchanged text yields the same step. -/
theorem step_recomputed_by_priority_rules (st : OnboardingState)
    (u : List (String × PyVal)) (msg : String)
    (h : loopCompletes u = true) :
    (updateState st msg (ExtractionOutcome.success u)).step
        = PyVal.pstr (stepSpecification (applyUpdates st u) msg)
    ∧ stepSpecification (updateState st msg (ExtractionOutcome.success u)) msg
        = stepSpecification (applyUpdates st u) msg := by
  have hu : updateState st msg (ExtractionOutcome.success u)
      = { applyUpdates st u with
          step := PyVal.pstr (computeStep (applyUpdates st u) msg) } := by
    simp only [updateState, runUpdates_completes u st h]
  rw [hu]
  constructor
  · show PyVal.pstr (computeStep (applyUpdates st u) msg) = _
    rw [stepSpecification_eq_computeStep]
  · rw [stepSpecification_eq_computeStep, stepSpecification_eq_computeStep]
    exact computeStep_step_irrelevant (applyUpdates st u) _ msg

/-- A small completing update object, used as a concrete input. -/
def uStoreOnly : List (String × PyVal) := [("store_id", PyVal.pstr "S1")]

/-- Claim C1, witness: at a concrete completing update the hypothesis
holds and both conjuncts of the amended statement follow. -/
theorem step_recomputed_by_priority_rules_witness :
    loopCompletes uStoreOnly = true
    ∧ ((updateState {} "hi" (ExtractionOutcome.success uStoreOnly)).step
          = PyVal.pstr (stepSpecification (applyUpdates {} uStoreOnly) "hi")
       ∧ stepSpecification
            (updateState {} "hi" (ExtractionOutcome.success uStoreOnly)) "hi"
          = stepSpecification (applyUpdates {} uStoreOnly) "hi") :=
  ⟨by decide, step_recomputed_by_priority_rules {} uStoreOnly "hi" (by decide)⟩

/-- The update object writing `"step": "completed"` and then hitting the
aborting attribute key `"dict"`, used as a concrete input. -/
def uStepComplete : List (String × PyVal) :=
  [("step", PyVal.pstr "completed"), ("dict", PyVal.pstr "x")]

/-- Claim C2, counterexample: the safety invariant is violated by an
aborting update.  On a freshly created record (every data field empty),
the parsed object first writes `step := "completed"`, then the key
`"dict"` (a non-field attribute: `hasattr` true, `setattr` raises) aborts
the loop; the `except` swallows the error and the recompute is skipped,
so the pass returns a record reporting `"completed"` with an empty
`store_id`. -/
theorem completed_without_fields_cex :
    (updateState {} "please provide your store id"
        (ExtractionOutcome.success uStepComplete)).step = PyVal.pstr "completed"
    ∧ (updateState {} "please provide your store id"
        (ExtractionOutcome.success uStepComplete)).store_id.truthy = false := by
  decide

/-- Claim C2 (amended): provided the update loop completes — no key of
the parsed object is a non-field attribute with a value other than
`"None"` — a record produced by the extraction pass reports
`"completed"` only when every data field is populated (truthy), no matter
what the oracle's JSON update said, in particular even when it contained
an explicit `"step": "completed"` entry: the recomputation then
overwrites any oracle-written step.  An aborting update, however, can
leave an oracle-written `"completed"` in place with empty fields. -/
theorem completed_implies_fields_populated (st : OnboardingState)
    (u : List (String × PyVal)) (msg : String)
    (hcomp : loopCompletes u = true)
    (h : (updateState st msg (ExtractionOutcome.success u)).step
            = PyVal.pstr "completed") :
    (updateState st msg (ExtractionOutcome.success u)).store_id.truthy = true
    ∧ (updateState st msg (ExtractionOutcome.success u)).team_name.truthy = true
    ∧ (updateState st msg (ExtractionOutcome.success u)).profile_name.truthy = true
    ∧ (updateState st msg (ExtractionOutcome.success u)).b2b_profiles.truthy = true
    ∧ (updateState st msg (ExtractionOutcome.success u)).b2b_identities.truthy = true
    ∧ (updateState st msg (ExtractionOutcome.success u)).selected_profiles.truthy = true
    ∧ (updateState st msg (ExtractionOutcome.success u)).selected_identities.truthy = true := by
  have hu : updateState st msg (ExtractionOutcome.success u)
      = { applyUpdates st u with
          step := PyVal.pstr (computeStep (applyUpdates st u) msg) } := by
    simp only [updateState, runUpdates_completes u st hcomp]
  rw [hu] at h
  have hc : computeStep (applyUpdates st u) msg = "completed" := by
    simpa using h
  have hfields : (applyUpdates st u).store_id.truthy = true
      ∧ (applyUpdates st u).team_name.truthy = true
      ∧ (applyUpdates st u).profile_name.truthy = true
      ∧ (applyUpdates st u).b2b_profiles.truthy = true
      ∧ (applyUpdates st u).b2b_identities.truthy = true
      ∧ (applyUpdates st u).selected_profiles.truthy = true
      ∧ (applyUpdates st u).selected_identities.truthy = true := by
    unfold computeStep at hc
    split_ifs at hc <;> first
      | (exact absurd hc (by decide))
      | simp_all
  rw [hu]
  simpa using hfields

/-- Claim C2, witness: with every field populated and a completing
oracle update that explicitly writes `"step": "completed"`, both
hypotheses hold at a concrete input and all fields are reported
populated. -/
theorem completed_implies_fields_populated_witness :
    loopCompletes [("step", PyVal.pstr "completed")] = true
    ∧ ((updateState stFull "Onboarding completed successfully."
        (ExtractionOutcome.success [("step", PyVal.pstr "completed")])).step
      = PyVal.pstr "completed")
    ∧ (updateState stFull "Onboarding completed successfully."
        (ExtractionOutcome.success [("step", PyVal.pstr "completed")])).store_id.truthy = true :=
  ⟨by decide, by decide,
   (completed_implies_fields_populated stFull
      [("step", PyVal.pstr "completed")]
      "Onboarding completed successfully." (by decide) (by decide)).1⟩

/-- Claim C3, counterexample: on extraction failure the step is NOT
recomputed.  A record holding a store id but a stale step
`"in_progress"` is returned with that stale step, while the priority
rules on the unchanged fields would give `"fetch_store_info"`. -/
theorem failure_step_not_recomputed_cex :
    (updateState stStale "hello" ExtractionOutcome.failure).step
      ≠ PyVal.pstr (computeStep stStale "hello") := by decide

/-- Claim C3 (amended): when the oracle's response is not valid JSON or
the oracle call raises, the extraction step returns the record with ALL
fields — the six data fields and also `step` — byte-for-byte unchanged;
no step recomputation occurs (it sits inside the same `try` block), the
failure is only logged, and the turn still succeeds (the node is total
and returns the record). -/
theorem failure_returns_record_unchanged (st : OnboardingState) (msg : String) :
    updateState st msg ExtractionOutcome.failure = st := rfl

/-- An update object whose first pair aborts the loop before a known
field could be written, used as a concrete input. -/
def uDictAbort : List (String × PyVal) :=
  [("dict", PyVal.pstr "x"), ("team_name", PyVal.pstr "New Team")]

/-- Claim C4, counterexample: the loop does NOT overwrite every known
field whose key occurs with a non-`"None"` value.  With the object
`[("dict", "x"), ("team_name", "New Team")]`, the pair `"dict"` (a
non-field attribute: `hasattr` true, pydantic `setattr` raises) aborts
the loop, so `team_name` — a known field with a non-`"None"` value —
is never overwritten. -/
theorem updates_abort_cex :
    (runUpdates ({} : OnboardingState) uDictAbort).1.team_name
      ≠ (lastWrite "team_name" uDictAbort).getD
          ({} : OnboardingState).team_name := by
  decide

/-- Claim C4 (amended): provided the update loop completes — no pair's
key is a non-field attribute with a value other than `"None"`, which
would make `setattr` raise and abort the remaining iterations — the loop
overwrites exactly those fields whose key names a known field and occurs
with a value different from the literal string `"None"` (the last such
occurrence wins); keys absent from the object and keys occurring only
with value `"None"` leave their field untouched, and unknown non-attribute
keys touch nothing (the eight equations characterize the whole resulting
record). -/
theorem updates_overwrite_exactly_known_non_none_keys
    (st : OnboardingState) (u : List (String × PyVal))
    (h : loopCompletes u = true) :
    (runUpdates st u).1.store_id = (lastWrite "store_id" u).getD st.store_id
    ∧ (runUpdates st u).1.team_name = (lastWrite "team_name" u).getD st.team_name
    ∧ (runUpdates st u).1.profile_name
        = (lastWrite "profile_name" u).getD st.profile_name
    ∧ (runUpdates st u).1.b2b_profiles
        = (lastWrite "b2b_profiles" u).getD st.b2b_profiles
    ∧ (runUpdates st u).1.b2b_identities
        = (lastWrite "b2b_identities" u).getD st.b2b_identities
    ∧ (runUpdates st u).1.selected_profiles
        = (lastWrite "selected_profiles" u).getD st.selected_profiles
    ∧ (runUpdates st u).1.selected_identities
        = (lastWrite "selected_identities" u).getD st.selected_identities
    ∧ (runUpdates st u).1.step = (lastWrite "step" u).getD st.step := by
  rw [runUpdates_completes u st h]
  exact ⟨applyUpdates_store_id u st, applyUpdates_team_name u st,
    applyUpdates_profile_name u st, applyUpdates_b2b_profiles u st,
    applyUpdates_b2b_identities u st, applyUpdates_selected_profiles u st,
    applyUpdates_selected_identities u st, applyUpdates_step u st⟩

/-- A completing update object mixing a field overwrite, an unknown
non-attribute key and a `"None"`-valued field key, used as a concrete
input. -/
def uMixed : List (String × PyVal) :=
  [("team_name", PyVal.pstr "New Team"), ("mystery_key", PyVal.pstr "x"),
   ("store_id", PyVal.pstr "None")]

/-- Claim C4, witness: at a concrete completing update the hypothesis
holds and all eight field equations follow. -/
theorem updates_overwrite_exactly_known_non_none_keys_witness :
    loopCompletes uMixed = true
    ∧ ((runUpdates stFull uMixed).1.store_id
          = (lastWrite "store_id" uMixed).getD stFull.store_id
       ∧ (runUpdates stFull uMixed).1.team_name
          = (lastWrite "team_name" uMixed).getD stFull.team_name
       ∧ (runUpdates stFull uMixed).1.profile_name
          = (lastWrite "profile_name" uMixed).getD stFull.profile_name
       ∧ (runUpdates stFull uMixed).1.b2b_profiles
          = (lastWrite "b2b_profiles" uMixed).getD stFull.b2b_profiles
       ∧ (runUpdates stFull uMixed).1.b2b_identities
          = (lastWrite "b2b_identities" uMixed).getD stFull.b2b_identities
       ∧ (runUpdates stFull uMixed).1.selected_profiles
          = (lastWrite "selected_profiles" uMixed).getD stFull.selected_profiles
       ∧ (runUpdates stFull uMixed).1.selected_identities
          = (lastWrite "selected_identities" uMixed).getD stFull.selected_identities
       ∧ (runUpdates stFull uMixed).1.step
          = (lastWrite "step" uMixed).getD stFull.step) :=
  ⟨by decide,
   updates_overwrite_exactly_known_non_none_keys stFull uMixed (by decide)⟩

/-- The update object writing an out-of-enum step and then aborting,
used as a concrete input. -/
def uBogusStep : List (String × PyVal) :=
  [("step", PyVal.pstr "bogus"), ("dict", PyVal.pstr "x")]

/-- Claim C10, counterexample: an oracle-supplied step outside the enum
CAN survive the pass.  The parsed object first writes `step := "bogus"`,
then the non-field attribute key `"dict"` makes `setattr` raise, the
`except` swallows it and the recompute is skipped, so the pass returns a
record whose step is `"bogus"` — not one of the six enum values. -/
theorem step_out_of_enum_cex :
    (updateState {} "m" (ExtractionOutcome.success uBogusStep)).step
      ∉ stepValues.map PyVal.pstr := by decide

/-- Claim C10 (amended): provided the update loop completes — no key of
the parsed object is a non-field attribute with a value other than
`"None"` — the step after the pass is one of the six enum values,
whatever step the oracle supplied; and on the parse-failure path starting
from a freshly created record the step is the default
`"collect_store_id"`, also in the set.  An aborting update, however, can
leave an oracle-written out-of-enum step in place. -/
theorem step_always_in_enum (st : OnboardingState)
    (u : List (String × PyVal)) (msg msg2 : String)
    (h : loopCompletes u = true) :
    (updateState st msg (ExtractionOutcome.success u)).step
        ∈ stepValues.map PyVal.pstr
    ∧ (updateState {} msg2 ExtractionOutcome.failure).step
        = PyVal.pstr "collect_store_id" := by
  constructor
  · have hu : updateState st msg (ExtractionOutcome.success u)
        = { applyUpdates st u with
            step := PyVal.pstr (computeStep (applyUpdates st u) msg) } := by
      simp only [updateState, runUpdates_completes u st h]
    rw [hu]
    show PyVal.pstr (computeStep (applyUpdates st u) msg) ∈ _
    exact List.mem_map_of_mem _ (computeStep_mem_stepValues (applyUpdates st u) msg)
  · rfl

/-- Claim C10, witness: at a concrete completing update (which even
writes an odd step value that the recompute then overwrites) the
hypothesis holds and both conjuncts follow. -/
theorem step_always_in_enum_witness :
    loopCompletes [("step", PyVal.pstr "odd")] = true
    ∧ ((updateState {} "m" (ExtractionOutcome.success [("step", PyVal.pstr "odd")])).step
          ∈ stepValues.map PyVal.pstr
       ∧ (updateState {} "m2" ExtractionOutcome.failure).step
          = PyVal.pstr "collect_store_id") :=
  ⟨by decide,
   step_always_in_enum {} [("step", PyVal.pstr "odd")] "m" "m2" (by decide)⟩

/-- Scenario check (spec section 8, A and B): an empty record recomputes
to `"collect_store_id"`; a record with only a store id recomputes to
`"fetch_store_info"`. -/
theorem scenario_empty_and_store_only :
    computeStep {} "anything" = "collect_store_id"
    ∧ computeStep { store_id := PyVal.pstr "S1" } "anything" = "fetch_store_info" := by
  constructor <;> decide

/-- Scenario check (spec section 8, D and E): with every field set, a
success message gives `"completed"` and a neutral message gives
`"in_progress"`. -/
theorem scenario_completed_and_in_progress :
    computeStep stFull "Your onboarding was completed SUCCESSFULLY." = "completed"
    ∧ computeStep stFull "Still working on it" = "in_progress" := by
  constructor <;> decide

/-- A one-session registry with an empty history, used as a concrete
input. -/
def regOne : Registry := [("s", {})]

/-- A turn oracle that always raises, used as a concrete input. -/
def turnBoom : Session → Except String (String × Session) :=
  fun _ => Except.error "boom"

/-- Claim C5, counterexample: an exception raised by the turn does NOT
leave the stored state as it was.  For a session already in the registry,
the handler appends the user message to the stored history in place
before running the turn, so after the failure the stored history already
holds the new message. -/
theorem chat_failure_partial_commit_cex :
    (chat regOne (some "s") "hi" turnBoom).1 ≠ regOne := by decide

/-- Claim C5 (amended): any exception while processing a turn is surfaced
to the caller as a request failure and the updated state is never
committed; for a session id not yet in the registry the stored state is
completely unchanged, but for an existing session the incoming user
message has already been appended in place to the stored history when the
failure occurs (a partial commit of the history), the stored onboarding
record itself being left as it was. -/
theorem chat_failure_registry_state (reg : Registry) (osid : Option String)
    (msg e : String) (turn : Session → Except String (String × Session)) :
    (∀ stored : Session, getSession reg (osid.getD "default") = some stored →
        turn { stored with messages := stored.messages ++ [msg] } = Except.error e →
        chat reg osid msg turn
          = (setSession (osid.getD "default")
              { stored with messages := stored.messages ++ [msg] } reg,
             Except.error e))
    ∧ (getSession reg (osid.getD "default") = none →
        turn { messages := [msg], record := {} } = Except.error e →
        chat reg osid msg turn = (reg, Except.error e)) := by
  constructor
  · intro stored hlook hturn
    simp only [chat, hlook, hturn]
  · intro hlook hturn
    simp only [chat, hlook, hturn]

/-- Claim C5, witness for the amended statement: at the concrete
one-session registry with a failing turn, the handler returns the error
and the registry whose only change is the appended user message. -/
theorem chat_failure_registry_state_witness :
    getSession regOne "s" = some {}
    ∧ chat regOne (some "s") "hi" turnBoom
        = (setSession "s" { messages := ["hi"], record := {} } regOne,
           Except.error "boom") :=
  ⟨by decide,
   (chat_failure_registry_state regOne (some "s") "hi" "boom" turnBoom).1
      {} (by decide) rfl⟩

/-- Claim C6: any exception during the agent phase is caught and replaced
by the fixed apology, appended as the single new assistant message, and
the onboarding record is left unmodified by the agent node. -/
theorem agent_error_appends_apology_only (state : WorkflowState) (e : String) :
    (run_agent state (Except.error e)).messages
        = state.messages ++ [ChatMsg.ai agentErrorMessage]
    ∧ (run_agent state (Except.error e)).onboarding_state
        = state.onboarding_state := ⟨rfl, rfl⟩

theorem loopIters_le {σ : Type} (step : σ → AgentStep σ) :
    ∀ (n : Nat) (s : σ), loopIters step n s ≤ n := by
  intro n
  induction n with
  | zero => intro s; exact Nat.le_refl 0
  | succ m ih =>
    intro s
    unfold loopIters
    cases h : step s with
    | finish a => simp only [h]; omega
    | next s' =>
      simp only [h]
      have hrec := ih s'
      omega

/-- Claim C7: the agent executor's internal tool-call loop runs at most
`max_iterations` (= 5, the cap set in `_create_agent`) iterations, and
when the cap is exhausted before a final answer the turn terminates with
the generic apology message instead of propagating an error. -/
theorem agent_loop_capped_at_five {σ : Type} (step : σ → AgentStep σ) (s : σ) :
    loopIters step max_iterations s ≤ 5
    ∧ (runLoop step max_iterations s = none →
        agentTurnResult step s = agentStopMessage) := by
  constructor
  · exact loopIters_le step max_iterations s
  · intro h
    unfold agentTurnResult
    rw [h]

/-- Claim C7, witness: a step function that never finishes exhausts the
cap, and the turn result is the apology. -/
theorem agent_loop_capped_at_five_witness :
    loopIters (fun n : Nat => AgentStep.next (n + 1)) max_iterations 0 ≤ 5
    ∧ agentTurnResult (fun n : Nat => AgentStep.next (n + 1)) 0 = agentStopMessage :=
  ⟨(agent_loop_capped_at_five (fun n : Nat => AgentStep.next (n + 1)) 0).1,
   (agent_loop_capped_at_five (fun n : Nat => AgentStep.next (n + 1)) 0).2 rfl⟩

/-- Claim C8: whenever the remote tool call fails — it raised, returned
empty content, or returned an undecodable payload — each of the three
gateway client operations returns exactly the direct in-process mock's
result for the same arguments. -/
theorem gateway_fallback_equals_mock (env : PyEnv)
    (store_id tn pn : String) (sp si : List String)
    (r1 : RemoteOutcome ProfileTeam) (r2 : RemoteOutcome B2BResult)
    (r3 : RemoteOutcome OnboardResult)
    (h1 : r1.failed = true) (h2 : r2.failed = true) (h3 : r3.failed = true) :
    client_get_profile_and_team_name env r1 store_id
        = get_profile_and_team_name_by_store_id env store_id
    ∧ client_get_b2b_profiles_and_identities env r2 store_id
        = get_b2b_profiles_and_identities_by_store_id env store_id
    ∧ client_onboard_user env r3 store_id tn pn sp si
        = onboard_user env store_id tn pn sp si := by
  refine ⟨?_, ?_, ?_⟩
  · rcases r1 with _ | _ | o
    · rfl
    · rfl
    · rcases o with _ | d
      · rfl
      · simp [RemoteOutcome.failed] at h1
  · rcases r2 with _ | _ | o
    · rfl
    · rfl
    · rcases o with _ | d
      · rfl
      · simp [RemoteOutcome.failed] at h2
  · rcases r3 with _ | _ | o
    · rfl
    · rfl
    · rcases o with _ | d
      · rfl
      · simp [RemoteOutcome.failed] at h3

/-- A concrete library environment for witnesses. -/
def envFixed : PyEnv :=
  { hash := fun _ => 3,
    sampleProfiles := fun _ => ["Retail Profile", "Finance Profile"],
    sampleIdentities := fun _ => ["Admin Identity", "Viewer Identity"] }

/-- Claim C8, witness: with an unreachable remote (the call raised), each
client operation returns the direct mock result for the same store id. -/
theorem gateway_fallback_equals_mock_witness :
    (RemoteOutcome.raised : RemoteOutcome ProfileTeam).failed = true
    ∧ client_get_profile_and_team_name envFixed RemoteOutcome.raised "S1"
        = get_profile_and_team_name_by_store_id envFixed "S1"
    ∧ client_get_b2b_profiles_and_identities envFixed RemoteOutcome.raised "S1"
        = get_b2b_profiles_and_identities_by_store_id envFixed "S1"
    ∧ client_onboard_user envFixed RemoteOutcome.raised "S1" "Delta Unit"
          "Standard Profile" ["Retail Profile"] ["Admin Identity"]
        = onboard_user envFixed "S1" "Delta Unit" "Standard Profile"
          ["Retail Profile"] ["Admin Identity"] :=
  ⟨rfl,
   (gateway_fallback_equals_mock envFixed "S1" "Delta Unit" "Standard Profile"
      ["Retail Profile"] ["Admin Identity"]
      RemoteOutcome.raised RemoteOutcome.raised RemoteOutcome.raised
      rfl rfl rfl).1,
   (gateway_fallback_equals_mock envFixed "S1" "Delta Unit" "Standard Profile"
      ["Retail Profile"] ["Admin Identity"]
      RemoteOutcome.raised RemoteOutcome.raised RemoteOutcome.raised
      rfl rfl rfl).2.1,
   (gateway_fallback_equals_mock envFixed "S1" "Delta Unit" "Standard Profile"
      ["Retail Profile"] ["Admin Identity"]
      RemoteOutcome.raised RemoteOutcome.raised RemoteOutcome.raised
      rfl rfl rfl).2.2⟩

/-- Claim C9, counterexample: `close()` is NOT non-throwing in every
connection state, and the handle is not always cleared.  With a stored
session handle, the unguarded `await self.session.close()` can raise; the
exception propagates out of `close()` and the handle stays set. -/
theorem close_raises_when_connected_cex :
    (MCPClientState.close ({ session := some () } : MCPClientState Unit)
        (Except.error "transport closed")).2.1 = Except.error "transport closed"
    ∧ (MCPClientState.close ({ session := some () } : MCPClientState Unit)
        (Except.error "transport closed")).1.session = some () :=
  ⟨rfl, rfl⟩

/-- Claim C9 (amended): when no session handle is stored — `connect()`
was never called, or a previous `close()` succeeded — `close()` performs
no remote work, raises nothing and leaves the handle `None`; after a
SUCCESSFUL close the stored handle is cleared, and a second close is then
a no-op (no remote work, no exception).  When a handle is stored and the
remote close raises, however, the exception propagates out of `close()`
and the handle remains set. -/
theorem close_noop_without_session {σ : Type} (c : MCPClientState σ)
    (remote remote2 : Except String Unit) :
    MCPClientState.close ({ session := none } : MCPClientState σ) remote
        = ({ session := none }, Except.ok (), false)
    ∧ (c.close (Except.ok ())).1.session = none
    ∧ (c.close (Except.ok ())).1.close remote2
        = ((c.close (Except.ok ())).1, Except.ok (), false) := by
  obtain ⟨s⟩ := c
  cases s <;> exact ⟨rfl, rfl, rfl⟩

end Onboarding
